import Mathlib

/-! Shallow embedding of the FaaS billing engine of this repository
    (`billing/billing_calculator.py`, `billing/metrics_manager.py`,
    `tarif_plan/models.py`, `faas_billing/config.py`).

    Python `Decimal` values are modelled as exact rationals.  The default
    Decimal context (28 significant digits, rounding `ROUND_HALF_EVEN`)
    is modelled as exact rational arithmetic with the explicit `quantize`
    calls of the source made explicit; the 28-digit context rounding is
    treated as exact, which is faithful for every magnitude the billing
    code manipulates.  Python `float` arithmetic appearing in the
    efficiency-metrics calculator is likewise modelled as exact rational
    arithmetic. -/

/-- Rounding of a rational to an integer, half to even: the rounding
    performed by `Decimal.quantize` under the default context
    (`ROUND_HALF_EVEN`). -/
def roundHalfEvenInt (s : ℚ) : ℤ :=
  if s - ⌊s⌋ < 1/2 then ⌊s⌋
  else if 1/2 < s - ⌊s⌋ then ⌊s⌋ + 1
  else if ⌊s⌋ % 2 = 0 then ⌊s⌋ else ⌊s⌋ + 1

/-- Rounding of a rational to an integer, half away from zero: the
    rounding mode `ROUND_HALF_UP` of Python `decimal`. -/
def roundHalfUpInt (s : ℚ) : ℤ :=
  if 0 ≤ s then ⌊s + 1/2⌋ else -⌊-s + 1/2⌋

/-- `x.quantize(Decimal('0.' ++ zeros d ++ '1'))` with default half-even
    rounding: round `x` to `d` decimal places. -/
def quantize (d : ℕ) (x : ℚ) : ℚ := (roundHalfEvenInt (x * 10 ^ d) : ℚ) / 10 ^ d

/-- `x.quantize(..., rounding=ROUND_HALF_UP)`: round `x` to `d` decimal
    places, ties away from zero. -/
def quantizeHalfUp (d : ℕ) (x : ℚ) : ℚ := (roundHalfUpInt (x * 10 ^ d) : ℚ) / 10 ^ d

theorem abs_roundHalfEvenInt_sub_le (s : ℚ) : |(roundHalfEvenInt s : ℚ) - s| ≤ 1/2 := by
  unfold roundHalfEvenInt
  have hfl : (⌊s⌋ : ℚ) ≤ s := Int.floor_le s
  have hfu : s < ⌊s⌋ + 1 := Int.lt_floor_add_one s
  split_ifs with h1 h2 h3 <;>
    · rw [abs_le]
      push_cast
      constructor <;> linarith

theorem roundHalfEvenInt_nonneg (s : ℚ) (h : 0 ≤ s) : 0 ≤ roundHalfEvenInt s := by
  unfold roundHalfEvenInt
  have h0 : (0 : ℤ) ≤ ⌊s⌋ := Int.floor_nonneg.mpr h
  split_ifs <;> omega

theorem roundHalfEvenInt_le (s : ℚ) (k : ℤ) (h : s ≤ k) : roundHalfEvenInt s ≤ k := by
  unfold roundHalfEvenInt
  have hk : ⌊s⌋ ≤ k := by
    have := Int.floor_le_floor h
    rwa [Int.floor_intCast] at this
  have hfl : (⌊s⌋ : ℚ) ≤ s := Int.floor_le s
  split_ifs with h1 h2 h3
  · exact hk
  · -- here 1/2 < s - ⌊s⌋, so ⌊s⌋ < s ≤ k, hence ⌊s⌋ + 1 ≤ k
    have : (⌊s⌋ : ℚ) < k := by linarith
    have : ⌊s⌋ < k := by exact_mod_cast this
    omega
  · exact hk
  · have : (⌊s⌋ : ℚ) < k := by linarith
    have : ⌊s⌋ < k := by exact_mod_cast this
    omega

theorem roundHalfEvenInt_intCast (m : ℤ) : roundHalfEvenInt (m : ℚ) = m := by
  unfold roundHalfEvenInt
  simp [Int.floor_intCast]

theorem floor_half : ⌊(1/2 : ℚ)⌋ = 0 := by
  rw [Int.floor_eq_zero_iff]
  constructor <;> norm_num

theorem roundHalfUpInt_intCast (m : ℤ) : roundHalfUpInt (m : ℚ) = m := by
  unfold roundHalfUpInt
  split_ifs with h
  · rw [Int.floor_int_add, floor_half]
    omega
  · rw [show (-(m : ℚ) + 1/2) = ((-m : ℤ) : ℚ) + 1/2 by push_cast; ring,
      Int.floor_int_add, floor_half]
    omega

theorem roundHalfUpInt_mono {s t : ℚ} (h : s ≤ t) : roundHalfUpInt s ≤ roundHalfUpInt t := by
  unfold roundHalfUpInt
  split_ifs with h1 h2 h2
  · exact Int.floor_le_floor (by linarith)
  · linarith
  · -- s < 0 ≤ t : lhs ≤ 0 ≤ rhs
    have hl : ⌊(1/2 : ℚ)⌋ ≤ ⌊-s + 1/2⌋ := Int.floor_le_floor (by linarith)
    have hr : ⌊(1/2 : ℚ)⌋ ≤ ⌊t + 1/2⌋ := Int.floor_le_floor (by linarith)
    rw [floor_half] at hl hr
    omega
  · have : -t ≤ -s := by linarith
    have := Int.floor_le_floor (show -t + 1/2 ≤ -s + 1/2 by linarith)
    omega

theorem abs_quantize_sub_le (d : ℕ) (x : ℚ) : |quantize d x - x| ≤ 1 / (2 * 10 ^ d) := by
  unfold quantize
  have hp : (0 : ℚ) < 10 ^ d := by positivity
  have h := abs_roundHalfEvenInt_sub_le (x * 10 ^ d)
  have heq : (roundHalfEvenInt (x * 10 ^ d) : ℚ) / 10 ^ d - x
      = ((roundHalfEvenInt (x * 10 ^ d) : ℚ) - x * 10 ^ d) / 10 ^ d := by
    field_simp
    ring
  rw [heq, abs_div, abs_of_pos hp, div_le_iff₀ hp]
  calc |(roundHalfEvenInt (x * 10 ^ d) : ℚ) - x * 10 ^ d| ≤ 1/2 := h
    _ = 1 / (2 * 10 ^ d) * 10 ^ d := by field_simp


theorem quantize_eq_intDiv (d : ℕ) (x : ℚ) : ∃ m : ℤ, quantize d x = (m : ℚ) / 10 ^ d :=
  ⟨roundHalfEvenInt (x * 10 ^ d), rfl⟩

theorem quantize_intDiv (d : ℕ) (m : ℤ) : quantize d ((m : ℚ) / 10 ^ d) = (m : ℚ) / 10 ^ d := by
  unfold quantize
  have hp : (10 : ℚ) ^ d ≠ 0 := by positivity
  rw [div_mul_cancel₀ _ hp, roundHalfEvenInt_intCast]

theorem quantize_idem (d : ℕ) (x : ℚ) : quantize d (quantize d x) = quantize d x :=
  quantize_intDiv d (roundHalfEvenInt (x * 10 ^ d))

theorem quantize_nonneg (d : ℕ) (x : ℚ) (h : 0 ≤ x) : 0 ≤ quantize d x := by
  unfold quantize
  have hp : (0 : ℚ) < 10 ^ d := by positivity
  have h1 : 0 ≤ roundHalfEvenInt (x * 10 ^ d) :=
    roundHalfEvenInt_nonneg _ (by positivity)
  positivity

theorem quantize_le_int (d : ℕ) (x : ℚ) (k : ℤ) (h : x ≤ k) : quantize d x ≤ k := by
  unfold quantize
  have hp : (0 : ℚ) < 10 ^ d := by positivity
  have h1 : x * 10 ^ d ≤ ((k * 10 ^ d : ℤ) : ℚ) := by
    push_cast
    exact mul_le_mul_of_nonneg_right h hp.le
  have h2 := roundHalfEvenInt_le (x * 10 ^ d) (k * 10 ^ d) h1
  rw [div_le_iff₀ hp]
  calc (roundHalfEvenInt (x * 10 ^ d) : ℚ) ≤ ((k * 10 ^ d : ℤ) : ℚ) := by exact_mod_cast h2
    _ = (k : ℚ) * 10 ^ d := by push_cast; ring

theorem quantizeHalfUp_mono (d : ℕ) {x y : ℚ} (h : x ≤ y) :
    quantizeHalfUp d x ≤ quantizeHalfUp d y := by
  unfold quantizeHalfUp
  have hp : (0 : ℚ) < 10 ^ d := by positivity
  have h1 : x * 10 ^ d ≤ y * 10 ^ d := mul_le_mul_of_nonneg_right h hp.le
  have h2 := roundHalfUpInt_mono h1
  exact div_le_div_of_nonneg_right (by exact_mod_cast h2) hp.le

theorem quantizeHalfUp_intDiv (d : ℕ) (m : ℤ) :
    quantizeHalfUp d ((m : ℚ) / 10 ^ d) = (m : ℚ) / 10 ^ d := by
  unfold quantizeHalfUp
  have hp : (10 : ℚ) ^ d ≠ 0 := by positivity
  rw [div_mul_cancel₀ _ hp, roundHalfUpInt_intCast]

/-- An integer multiple of the 4-decimal quantum whose magnitude is at most
    one and a half quanta is in fact at most one quantum. -/
theorem intMul_quantum_le (i : ℤ) (h : |(i : ℚ) / 10 ^ 4| ≤ 3 / 2 / 10 ^ 4) :
    |(i : ℚ) / 10 ^ 4| ≤ 1 / 10 ^ 4 := by
  have hp : (0 : ℚ) < 10 ^ 4 := by positivity
  rw [abs_div, abs_of_pos hp, div_le_div_iff_of_pos_right hp] at h ⊢
  have hi : |i| ≤ 1 := by
    by_contra hc
    push_neg at hc
    have h2 : (2 : ℤ) ≤ |i| := hc
    have : (2 : ℚ) ≤ |(i : ℚ)| := by
      rw [← Int.cast_abs]
      exact_mod_cast h2
    linarith
  calc |(i : ℚ)| = ((|i| : ℤ) : ℚ) := Int.cast_abs.symm
    _ ≤ 1 := by exact_mod_cast hi

theorem quantize4_add_err (x y : ℚ) :
    |quantize 4 (x + y) - (quantize 4 x + y)| ≤ 1 / 10 ^ 4 := by
  have h1 := abs_quantize_sub_le 4 (x + y)
  have h2 := abs_quantize_sub_le 4 x
  have heq : quantize 4 (x + y) - (quantize 4 x + y)
      = (quantize 4 (x + y) - (x + y)) + -(quantize 4 x - x) := by ring
  calc |quantize 4 (x + y) - (quantize 4 x + y)|
      ≤ |quantize 4 (x + y) - (x + y)| + |-(quantize 4 x - x)| := by
        rw [heq]; exact abs_add _ _
    _ ≤ 1 / (2 * 10 ^ 4) + 1 / (2 * 10 ^ 4) := by rw [abs_neg]; exact add_le_add h1 h2
    _ = 1 / 10 ^ 4 := by norm_num

theorem quantize4_sub_err (x y : ℚ) :
    |quantize 4 (x - y) - (quantize 4 x - quantize 4 y)| ≤ 1 / 10 ^ 4 := by
  obtain ⟨a, ha⟩ := quantize_eq_intDiv 4 (x - y)
  obtain ⟨b, hb⟩ := quantize_eq_intDiv 4 x
  obtain ⟨c, hc⟩ := quantize_eq_intDiv 4 y
  have h1 := abs_quantize_sub_le 4 (x - y)
  have h2 := abs_quantize_sub_le 4 x
  have h3 := abs_quantize_sub_le 4 y
  have hbound : |quantize 4 (x - y) - (quantize 4 x - quantize 4 y)| ≤ 3 / 2 / 10 ^ 4 := by
    have heq : quantize 4 (x - y) - (quantize 4 x - quantize 4 y)
        = (quantize 4 (x - y) - (x - y)) + -(quantize 4 x - x) + (quantize 4 y - y) := by ring
    calc |quantize 4 (x - y) - (quantize 4 x - quantize 4 y)|
        ≤ |(quantize 4 (x - y) - (x - y)) + -(quantize 4 x - x)| + |quantize 4 y - y| := by
          rw [heq]; exact abs_add _ _
      _ ≤ |quantize 4 (x - y) - (x - y)| + |-(quantize 4 x - x)| + |quantize 4 y - y| :=
          add_le_add_right (abs_add _ _) _
      _ ≤ 1 / (2 * 10 ^ 4) + 1 / (2 * 10 ^ 4) + 1 / (2 * 10 ^ 4) := by
          rw [abs_neg]; exact add_le_add (add_le_add h1 h2) h3
      _ = 3 / 2 / 10 ^ 4 := by norm_num
  have hrepr : quantize 4 (x - y) - (quantize 4 x - quantize 4 y)
      = ((a - b + c : ℤ) : ℚ) / 10 ^ 4 := by
    rw [ha, hb, hc]
    push_cast
    ring
  rw [hrepr] at hbound ⊢
  exact intMul_quantum_le _ hbound

theorem quantize4_two_mul_err (x : ℚ) :
    |quantize 4 (2 * x) - 2 * quantize 4 x| ≤ 1 / 10 ^ 4 := by
  obtain ⟨a, ha⟩ := quantize_eq_intDiv 4 (2 * x)
  obtain ⟨b, hb⟩ := quantize_eq_intDiv 4 x
  have h1 := abs_quantize_sub_le 4 (2 * x)
  have h2 := abs_quantize_sub_le 4 x
  have hbound : |quantize 4 (2 * x) - 2 * quantize 4 x| ≤ 3 / 2 / 10 ^ 4 := by
    have heq : quantize 4 (2 * x) - 2 * quantize 4 x
        = (quantize 4 (2 * x) - 2 * x) + -(2 * (quantize 4 x - x)) := by ring
    calc |quantize 4 (2 * x) - 2 * quantize 4 x|
        ≤ |quantize 4 (2 * x) - 2 * x| + |-(2 * (quantize 4 x - x))| := by
          rw [heq]; exact abs_add _ _
      _ = |quantize 4 (2 * x) - 2 * x| + 2 * |quantize 4 x - x| := by
          rw [abs_neg, abs_mul]
          norm_num
      _ ≤ 1 / (2 * 10 ^ 4) + 2 * (1 / (2 * 10 ^ 4)) := by
          exact add_le_add h1 (by linarith)
      _ = 3 / 2 / 10 ^ 4 := by norm_num
  have hrepr : quantize 4 (2 * x) - 2 * quantize 4 x = ((a - 2 * b : ℤ) : ℚ) / 10 ^ 4 := by
    rw [ha, hb]
    push_cast
    ring
  rw [hrepr] at hbound ⊢
  exact intMul_quantum_le _ hbound

/-! ### Data model (`tarif_plan/models.py`) -/

/-- `TariffPlan.PlanTier`. -/
inductive PlanTier
  | STARTER
  | PROFESSIONAL
  | ENTERPRISE
deriving DecidableEq

/-- `UserSubscription.SubscriptionStatus`. -/
inductive SubscriptionStatus
  | ACTIVE
  | SUSPENDED
  | CANCELLED
  | EXPIRED
deriving DecidableEq

/-- `TariffPlan`: the columns the billing engine reads.  Decimal columns are
    rationals; `min_efficiency_factor` and `max_efficiency_factor` are stored
    with two decimal places (`DecimalField(max_digits=3, decimal_places=2)`). -/
structure TariffPlan where
  name : String
  tier : PlanTier
  is_active : Bool
  cpu_rate_per_hour : ℚ
  memory_rate_per_gb_hour : ℚ
  cold_start_penalty : ℚ
  platform_fee_rate : ℚ
  min_efficiency_factor : ℚ
  max_efficiency_factor : ℚ
  max_functions : ℤ
  max_cpu_per_function : ℤ
  max_memory_per_function : ℤ
  max_scale : ℤ
  monthly_price : ℚ
deriving DecidableEq

/-- The `Function.metrics` / `function_metrics` dictionary: every key the
    engine reads, `none` when the key is absent.  The `dict.get` defaults of
    the source are applied at each read site, exactly as in the code. -/
structure FunctionMetrics where
  total_cpu_usage : Option ℚ := none
  total_cpu_request : Option ℚ := none
  total_memory_usage : Option ℚ := none
  total_memory_request : Option ℚ := none
  pod_count : Option ℚ := none
  total_pod_uptime_seconds : Option ℚ := none
  max_cold_start_time_seconds : Option ℚ := none
  cold_start_count : Option ℤ := none
  overall_efficiency : Option ℚ := none
deriving DecidableEq

/-- The optional `cluster_metrics` dictionary: only `average_load_percent`
    is read (default 50). -/
structure ClusterMetrics where
  average_load_percent : Option ℚ := none
deriving DecidableEq

/-- The dictionary returned by
    `MetricsCalculator.calculate_efficiency_metrics`. -/
structure EfficiencyResult where
  cpu_efficiency : ℚ
  memory_efficiency : ℚ
  overall_efficiency : ℚ
  cost_saving_percent : ℚ
  performance_score : ℚ
deriving DecidableEq

/-! ### `MetricsCalculator` (`billing/billing_calculator.py`) -/

/-- `MetricsCalculator._calculate_cpu_efficiency`. -/
def calculate_cpu_efficiency (actual_usage requested : ℚ) : ℚ :=
  if requested = 0 then 0 else min (actual_usage / requested * 100) 100

/-- `MetricsCalculator._calculate_memory_efficiency` (the same formula over
    the memory counters). -/
def calculate_memory_efficiency (actual_usage requested : ℚ) : ℚ :=
  if requested = 0 then 0 else min (actual_usage / requested * 100) 100

/-- `MetricsCalculator._calculate_cost_saving`. -/
def calculate_cost_saving (cpu_eff memory_eff pod_count : ℚ) : ℚ :=
  let avg_efficiency := (cpu_eff + memory_eff) / 2
  let scale_factor := min (pod_count / 10) 1
  (100 - avg_efficiency) * scale_factor

/-- `MetricsCalculator._calculate_performance_score`. -/
def calculate_performance_score (m : FunctionMetrics) : ℚ :=
  let uptime := m.total_pod_uptime_seconds.getD 0
  let cold_start := m.max_cold_start_time_seconds.getD 0
  let uptime_score := min (uptime / 3600) 100
  let cold_start_penalty := min (cold_start * 10) 50
  max (uptime_score - cold_start_penalty) 0

/-- `MetricsCalculator.calculate_efficiency_metrics`.  Python `round(x, 2)`
    (round half to even) is `quantize 2`. -/
def calculate_efficiency_metrics (m : FunctionMetrics) : EfficiencyResult :=
  let cpu_efficiency :=
    calculate_cpu_efficiency (m.total_cpu_usage.getD 0) (m.total_cpu_request.getD 1)
  let memory_efficiency :=
    calculate_memory_efficiency (m.total_memory_usage.getD 0) (m.total_memory_request.getD 1)
  let overall_efficiency := (cpu_efficiency + memory_efficiency) / 2
  let cost_saving := calculate_cost_saving cpu_efficiency memory_efficiency (m.pod_count.getD 0)
  { cpu_efficiency := quantize 2 cpu_efficiency
    memory_efficiency := quantize 2 memory_efficiency
    overall_efficiency := quantize 2 overall_efficiency
    cost_saving_percent := quantize 2 cost_saving
    performance_score := calculate_performance_score m }

/-! ### `BillingCalculator` pricing pipeline -/

/-- The six rate parameters resolved at the top of
    `BillingCalculator.calculate_function_cost`. -/
structure Rates where
  cpu_rate : ℚ
  memory_rate : ℚ
  cold_start_penalty : ℚ
  platform_fee_rate : ℚ
  min_efficiency : ℚ
  max_efficiency : ℚ
deriving DecidableEq

/-- Rate resolution: hardcoded fallback constants when no tariff plan is
    resolved, otherwise the plan's own columns.  (The `getattr(..., default)`
    calls of the source cannot fall through here because the Django
    `TariffPlan` model declares every one of these columns.) -/
def rates : Option TariffPlan → Rates
  | none =>
    { cpu_rate := 2/1000, memory_rate := 1/1000, cold_start_penalty := 5/1000
      platform_fee_rate := 13/10, min_efficiency := 7/10, max_efficiency := 13/10 }
  | some tp =>
    { cpu_rate := tp.cpu_rate_per_hour, memory_rate := tp.memory_rate_per_gb_hour
      cold_start_penalty := tp.cold_start_penalty, platform_fee_rate := tp.platform_fee_rate
      min_efficiency := tp.min_efficiency_factor, max_efficiency := tp.max_efficiency_factor }

/-- The cluster-load coefficient inside `calculate_cold_start_cost`:
    `load_factor = max(Decimal('0.8'), min(Decimal('1.5'),
    Decimal('1.0') + (cluster_load - 50) / 100))`. -/
def load_factor (cluster_load : ℚ) : ℚ :=
  max (8/10) (min (15/10) (1 + (cluster_load - 50) / 100))

/-- `BillingCalculator.calculate_cold_start_cost`.  A `cluster_metrics`
    argument that is `None` or an empty dict is falsy in the source and skips
    the scaling; an empty dict may equivalently be modelled as
    `some { average_load_percent := none }`, whose default load of 50 gives
    `load_factor = 1` and hence the same result. -/
def calculate_cold_start_cost (cold_start_count : ℤ)
    (cluster_metrics : Option ClusterMetrics) (cold_start_penalty : ℚ) : ℚ :=
  if cold_start_count ≤ 0 then 0
  else
    let base_cost := (cold_start_count : ℚ) * cold_start_penalty
    match cluster_metrics with
    | none => base_cost
    | some cm => base_cost * load_factor (cm.average_load_percent.getD 50)

/-- `BillingCalculator.calculate_efficiency_factor`. -/
def calculate_efficiency_factor (efficiency min_efficiency max_efficiency : ℚ) : ℚ :=
  if efficiency ≤ 0 then max_efficiency
  else
    let raw_factor := 100 / efficiency
    let bounded_factor := max min_efficiency (min max_efficiency raw_factor)
    quantizeHalfUp 3 bounded_factor

/-- `BillingCalculator._calculate_fixed_plan_cost`: note the `quantize` to
    four decimal places inside this helper, before its result enters the
    `total_cost` sum. -/
def calculate_fixed_plan_cost (tariff_plan : Option TariffPlan) (period_hours : ℚ) : ℚ :=
  match tariff_plan with
  | none => 0
  | some tp =>
    if tp.monthly_price = 0 then 0
    else quantize 4 (tp.monthly_price / 730 * period_hours)

/-- `cpu_hours` in `calculate_function_cost`. -/
def cpu_hours_of (m : FunctionMetrics) (period_hours : ℚ) : ℚ :=
  m.total_cpu_request.getD 0 / 1000 * period_hours

/-- `memory_gb_hours` in `calculate_function_cost` (`1024 ** 3` bytes per
    GB). -/
def memory_gb_hours_of (m : FunctionMetrics) (period_hours : ℚ) : ℚ :=
  m.total_memory_request.getD 0 / 1024 ^ 3 * period_hours

/-- `cpu_cost` before output quantization. -/
def cpu_cost_of (t : Option TariffPlan) (m : FunctionMetrics) (period_hours : ℚ) : ℚ :=
  cpu_hours_of m period_hours * (rates t).cpu_rate

/-- `memory_cost` before output quantization. -/
def memory_cost_of (t : Option TariffPlan) (m : FunctionMetrics) (period_hours : ℚ) : ℚ :=
  memory_gb_hours_of m period_hours * (rates t).memory_rate

/-- `cold_start_cost` before output quantization. -/
def cold_start_cost_of (t : Option TariffPlan) (m : FunctionMetrics)
    (cluster_metrics : Option ClusterMetrics) : ℚ :=
  calculate_cold_start_cost (m.cold_start_count.getD 0) cluster_metrics
    (rates t).cold_start_penalty

/-- The `efficiency_factor` of step 3 (`overall_efficiency` defaults to 100
    when the key is absent). -/
def efficiency_factor_of (t : Option TariffPlan) (m : FunctionMetrics) : ℚ :=
  calculate_efficiency_factor (m.overall_efficiency.getD 100)
    (rates t).min_efficiency (rates t).max_efficiency

/-- `base_cost` before output quantization. -/
def base_cost_of (t : Option TariffPlan) (m : FunctionMetrics) (period_hours : ℚ)
    (cluster_metrics : Option ClusterMetrics) : ℚ :=
  (cpu_cost_of t m period_hours + memory_cost_of t m period_hours
    + cold_start_cost_of t m cluster_metrics) * efficiency_factor_of t m

/-- `final_cost` before output quantization. -/
def final_cost_of (t : Option TariffPlan) (m : FunctionMetrics) (period_hours : ℚ)
    (cluster_metrics : Option ClusterMetrics) : ℚ :=
  base_cost_of t m period_hours cluster_metrics * (rates t).platform_fee_rate

/-- `total_cost` before output quantization (its `fixed_cost` summand is the
    already-quantized result of `_calculate_fixed_plan_cost`). -/
def total_cost_of (t : Option TariffPlan) (m : FunctionMetrics) (period_hours : ℚ)
    (cluster_metrics : Option ClusterMetrics) : ℚ :=
  final_cost_of t m period_hours cluster_metrics + calculate_fixed_plan_cost t period_hours

/-- The dictionary returned by `calculate_function_cost`. -/
structure CostBreakdown where
  cpu_hours : ℚ
  memory_gb_hours : ℚ
  cold_start_count : ℤ
  average_efficiency : ℚ
  cpu_cost : ℚ
  memory_cost : ℚ
  cold_start_cost : ℚ
  efficiency_factor : ℚ
  base_cost : ℚ
  final_cost : ℚ
  fixed_plan_cost : ℚ
  total_cost : ℚ
  platform_fee : ℚ
deriving DecidableEq

/-- `BillingCalculator.calculate_function_cost`.  The tariff-plan argument is
    `self.tariff_plan` as resolved by `_get_user_tariff_plan` (the in-method
    retry re-reads the same store and leaves the resolved value unchanged). -/
def calculate_function_cost (t : Option TariffPlan) (m : FunctionMetrics)
    (period_hours : ℚ) (cluster_metrics : Option ClusterMetrics) : CostBreakdown :=
  { cpu_hours := quantize 4 (cpu_hours_of m period_hours)
    memory_gb_hours := quantize 4 (memory_gb_hours_of m period_hours)
    cold_start_count := m.cold_start_count.getD 0
    average_efficiency := quantize 2 (m.overall_efficiency.getD 100)
    cpu_cost := quantize 4 (cpu_cost_of t m period_hours)
    memory_cost := quantize 4 (memory_cost_of t m period_hours)
    cold_start_cost := quantize 4 (cold_start_cost_of t m cluster_metrics)
    efficiency_factor := efficiency_factor_of t m
    base_cost := quantize 4 (base_cost_of t m period_hours cluster_metrics)
    final_cost := quantize 4 (final_cost_of t m period_hours cluster_metrics)
    fixed_plan_cost := quantize 4 (calculate_fixed_plan_cost t period_hours)
    total_cost := quantize 4 (total_cost_of t m period_hours cluster_metrics)
    platform_fee := quantize 4 (final_cost_of t m period_hours cluster_metrics
      - base_cost_of t m period_hours cluster_metrics) }

/-! ### Plan limit checker (`BillingCalculator.check_plan_limits`) -/

/-- The `plan_limits` dictionary of `check_plan_limits`: hardcoded fallback
    quotas when no tariff plan is resolved, else the plan's columns (the
    `getattr` defaults cannot fall through: the model declares every
    column). -/
structure PlanLimits where
  max_functions : ℤ
  max_cpu_per_function : ℤ
  max_memory_per_function : ℤ
  max_scale : ℤ
deriving DecidableEq

def plan_limits_of : Option TariffPlan → PlanLimits
  | none =>
    { max_functions := 10, max_cpu_per_function := 2000
      max_memory_per_function := 2147483648, max_scale := 10 }
  | some tp =>
    { max_functions := tp.max_functions, max_cpu_per_function := tp.max_cpu_per_function
      max_memory_per_function := tp.max_memory_per_function, max_scale := tp.max_scale }

/-- The `function_data` dictionary handed to `check_plan_limits`
    (each key read with `.get(key, 0)`). -/
structure FunctionData where
  cpu_request : Option ℤ := none
  memory_request : Option ℤ := none
  max_scale : Option ℤ := none
deriving DecidableEq

/-- The summary built by `BillingCalculator._get_current_usage`. -/
structure CurrentUsage where
  functions_count : ℤ
  total_cpu : ℤ := 0
  total_memory : ℤ := 0
deriving DecidableEq

/-- A deployed function of the user, as read by `_get_current_usage`
    (only `min_scale` is consulted). -/
structure DeployedFunction where
  min_scale : ℤ
deriving DecidableEq

/-- `BillingCalculator._get_current_usage`. -/
def get_current_usage : Option (List DeployedFunction) → CurrentUsage
  | none => { functions_count := 0 }
  | some fns =>
    { functions_count := fns.length
      total_cpu := (fns.map (fun f => f.min_scale * 1000)).sum
      total_memory := (fns.map (fun f => f.min_scale * 536870912)).sum }

/-- The dictionary returned by `check_plan_limits`. -/
structure LimitCheckResult where
  allowed : Bool
  functions_limit : Bool
  cpu_limit : Bool
  memory_limit : Bool
  scale_limit : Bool
  limits : PlanLimits
  current_usage : CurrentUsage
deriving DecidableEq

/-- `BillingCalculator.check_plan_limits`: the `user_functions` argument is
    the user's function set consulted by `_get_current_usage` (`none` for no
    user). -/
def check_plan_limits (t : Option TariffPlan)
    (user_functions : Option (List DeployedFunction))
    (function_data : FunctionData) : LimitCheckResult :=
  let plan_limits := plan_limits_of t
  let current_usage := get_current_usage user_functions
  let functions_limit := decide (current_usage.functions_count < plan_limits.max_functions)
  let cpu_limit := decide (function_data.cpu_request.getD 0 ≤ plan_limits.max_cpu_per_function)
  let memory_limit :=
    decide (function_data.memory_request.getD 0 ≤ plan_limits.max_memory_per_function)
  let scale_limit := decide (function_data.max_scale.getD 0 ≤ plan_limits.max_scale)
  { allowed := functions_limit && cpu_limit && memory_limit && scale_limit
    functions_limit := functions_limit
    cpu_limit := cpu_limit
    memory_limit := memory_limit
    scale_limit := scale_limit
    limits := plan_limits
    current_usage := current_usage }

/-! ### Tariff resolver (`BillingCalculator._get_user_tariff_plan`) -/

/-- A `UserSubscription` row: the columns read by `_get_user_tariff_plan`. -/
structure UserSubscription where
  user : ℕ
  status : SubscriptionStatus
  tariff_plan : TariffPlan
deriving DecidableEq

/-- The tariff-plan / subscription store behind the Django ORM queries. -/
structure TariffStore where
  plans : List TariffPlan
  subscriptions : List UserSubscription
deriving DecidableEq

/-- `TariffPlan.objects.filter(tier=STARTER, is_active=True).first()`. -/
def first_active_starter (db : TariffStore) : Option TariffPlan :=
  db.plans.find? (fun p => decide (p.tier = PlanTier.STARTER) && p.is_active)

/-- `UserSubscription.objects.filter(user=user, status=ACTIVE).first()`. -/
def first_active_subscription (db : TariffStore) (user : ℕ) : Option UserSubscription :=
  db.subscriptions.find?
    (fun s => decide (s.user = user) && decide (s.status = SubscriptionStatus.ACTIVE))

/-- The plan created by the bootstrap branch of `_get_user_tariff_plan`:
    `TariffPlan.objects.create(name="Starter Plan", tier=STARTER,
    description=..., is_active=True, monthly_price=Decimal('0.00'))`, every
    other column taking its model default from `tarif_plan/models.py`. -/
def bootstrap_starter_plan : TariffPlan :=
  { name := "Starter Plan", tier := PlanTier.STARTER, is_active := true
    cpu_rate_per_hour := 2/1000, memory_rate_per_gb_hour := 1/1000
    cold_start_penalty := 5/1000, platform_fee_rate := 13/10
    min_efficiency_factor := 7/10, max_efficiency_factor := 13/10
    max_functions := 10, max_cpu_per_function := 2000
    max_memory_per_function := 2147483648, max_scale := 10
    monthly_price := 0 }

/-- `BillingCalculator._get_user_tariff_plan`.  The store argument is
    `Except.error ()` when a data access raises (the `except` branch of the
    source, which returns `None`); the result pairs the returned plan with
    the store as left behind (the bootstrap branch persists a new plan). -/
def get_user_tariff_plan :
    Except Unit TariffStore → Option ℕ → Option TariffPlan × Except Unit TariffStore
  | Except.error e, _ => (none, Except.error e)
  | Except.ok db, none => (first_active_starter db, Except.ok db)
  | Except.ok db, some user =>
    match first_active_subscription db user with
    | some subscription => (some subscription.tariff_plan, Except.ok db)
    | none =>
      match first_active_starter db with
      | some default_plan => (some default_plan, Except.ok db)
      | none =>
        (some bootstrap_starter_plan,
          Except.ok { db with plans := db.plans ++ [bootstrap_starter_plan] })

/-! ### Cost cache (`billing/metrics_manager.py`, `faas_billing/config.py`) -/

/-- The per-period summary kept by `calculate_function_cost_now`. -/
structure PeriodCosts where
  total_cost : ℚ
  cpu_cost : ℚ
  memory_cost : ℚ
  cold_start_cost : ℚ
  platform_fee : ℚ
deriving DecidableEq

/-- The value stored in the cost cache.  The source stores, besides the
    detailed per-period set and the metrics used, a `costs` map holding
    `float(total_cost)` per period and an `updated_at` timestamp; the
    binary-float projection is modelled as the exact total. -/
structure CachedCostEntry where
  costs : List (String × ℚ)
  detailed_costs : List (String × PeriodCosts)
  metrics_used : FunctionMetrics
  updated_at : ℚ
deriving DecidableEq

/-- The Django cache: entries `(key, value, expiry)`.  `set` with a timeout
    records `now + timeout` as the expiry instant; `get` returns only
    unexpired entries. -/
structure CacheState where
  entries : List (String × CachedCostEntry × ℚ) := []
deriving DecidableEq

def cache_set (c : CacheState) (key : String) (value : CachedCostEntry)
    (timeout now : ℚ) : CacheState :=
  { entries := (key, value, now + timeout) :: c.entries.filter (fun e => decide (e.1 ≠ key)) }

def cache_get (c : CacheState) (key : String) (now : ℚ) : Option CachedCostEntry :=
  match c.entries.find? (fun e => decide (e.1 = key)) with
  | none => none
  | some e => if now < e.2.2 then some e.2.1 else none

/-- `config.COST_CALCULATION_CACHE_TIMEOUT` (seconds, default 120). -/
def cost_calculation_cache_timeout : ℚ := 120

/-- `config.get_cache_key_function_cost`: the composite key
    `function_cost_<function_id>_<user_id>`. -/
def cache_key_function_cost (function_id user_id : ℕ) : String :=
  "function_cost_" ++ toString function_id ++ "_" ++ toString user_id

/-- `config.get_periods()`: `PERIOD_MINUTE = Decimal('0.01667')`,
    `PERIOD_HOUR = 1`, `PERIOD_DAY = 24`, `PERIOD_MONTH = 720`. -/
def billing_periods : List (String × ℚ) :=
  [("minute", 1667/100000), ("hour", 1), ("day", 24), ("month", 720)]

/-- The function object read by `SimpleMetricsManager` and
    `config.get_default_function_metrics`. -/
structure FunctionObj where
  id : ℕ
  min_scale : ℤ
  memory_request : Option ℚ := none
  metrics : Option FunctionMetrics := none
deriving DecidableEq

structure UserObj where
  id : ℕ
deriving DecidableEq

/-- The default-filling loop of `calculate_function_cost_now`: each key of
    `config.get_default_function_metrics(function)` — `total_cpu_request =
    min_scale * DEFAULT_CPU_REQUEST_PER_POD (1000)`, `total_memory_request =
    getattr(function, 'memory_request', 536870912)`, `overall_efficiency =
    80`, `cold_start_count = 0` — is inserted only when absent from the
    function's own metrics. -/
def fill_default_metrics (fm : FunctionMetrics) (f : FunctionObj) : FunctionMetrics :=
  { fm with
    total_cpu_request := some (fm.total_cpu_request.getD ((f.min_scale : ℚ) * 1000))
    total_memory_request := some (fm.total_memory_request.getD (f.memory_request.getD 536870912))
    overall_efficiency := some (fm.overall_efficiency.getD 80)
    cold_start_count := some (fm.cold_start_count.getD 0) }

/-- The five fields of each period entry built by
    `calculate_function_cost_now`. -/
def period_costs_of (b : CostBreakdown) : PeriodCosts :=
  { total_cost := b.total_cost, cpu_cost := b.cpu_cost, memory_cost := b.memory_cost
    cold_start_cost := b.cold_start_cost, platform_fee := b.platform_fee }

/-- `SimpleMetricsManager.calculate_function_cost_now` (the success path of
    the `try` block): fills missing metrics keys from the configured
    defaults, computes a breakdown per configured period, stores the set in
    the cache under the composite key with the configured timeout, and
    returns it.  `tariff` is the plan resolved by `BillingCalculator(user)`;
    `now` is the wall clock at the call. -/
def calculate_function_cost_now (tariff : Option TariffPlan) (f : FunctionObj)
    (u : UserObj) (c : CacheState) (now : ℚ) :
    List (String × PeriodCosts) × CacheState :=
  let function_metrics := fill_default_metrics (f.metrics.getD {}) f
  let costs := billing_periods.map fun pr =>
    (pr.1, period_costs_of (calculate_function_cost tariff function_metrics pr.2 none))
  let entry : CachedCostEntry :=
    { costs := costs.map (fun e => (e.1, e.2.total_cost))
      detailed_costs := costs
      metrics_used := function_metrics
      updated_at := now }
  (costs,
    cache_set c (cache_key_function_cost f.id u.id) entry cost_calculation_cache_timeout now)

/-- `SimpleMetricsManager.get_cached_costs`. -/
def get_cached_costs (f : FunctionObj) (u : UserObj) (c : CacheState) (now : ℚ) :
    Option CachedCostEntry :=
  cache_get c (cache_key_function_cost f.id u.id) now

/-- `SimpleMetricsManager.clear_cost_cache`. -/
def clear_cost_cache (f : FunctionObj) (u : UserObj) (c : CacheState) : CacheState :=
  { entries := c.entries.filter (fun e => decide (e.1 ≠ cache_key_function_cost f.id u.id)) }

/-! ### Theorems -/

/-- Claim C1: for every `overall_efficiency` input and tariff bounds with
    `min_efficiency_factor ≤ max_efficiency_factor` (tariff bounds are
    decimals on the 3-decimal grid: the model stores them with two decimal
    places), `calculate_efficiency_factor` returns
    `clamp(100/overall_efficiency, min, max)` rounded to 3 decimal places
    half-up when `overall_efficiency > 0`, returns `max_efficiency_factor`
    directly when `overall_efficiency ≤ 0`, and in all cases the result lies
    within `[min_efficiency_factor, max_efficiency_factor]` inclusive. -/
theorem c1_efficiency_factor_spec (efficiency minE maxE : ℚ) (a b : ℤ)
    (ha : minE = (a : ℚ) / 10 ^ 3) (hb : maxE = (b : ℚ) / 10 ^ 3) (hab : minE ≤ maxE) :
    (0 < efficiency →
      calculate_efficiency_factor efficiency minE maxE
        = quantizeHalfUp 3 (max minE (min maxE (100 / efficiency)))) ∧
    (efficiency ≤ 0 → calculate_efficiency_factor efficiency minE maxE = maxE) ∧
    minE ≤ calculate_efficiency_factor efficiency minE maxE ∧
    calculate_efficiency_factor efficiency minE maxE ≤ maxE := by
  refine ⟨fun h => ?_, fun h => ?_, ?_, ?_⟩
  · rw [calculate_efficiency_factor, if_neg (not_le.mpr h)]
  · rw [calculate_efficiency_factor, if_pos h]
  · by_cases hc : efficiency ≤ 0
    · rw [calculate_efficiency_factor, if_pos hc]
      exact hab
    · rw [calculate_efficiency_factor, if_neg hc]
      have h1 : minE ≤ max minE (min maxE (100 / efficiency)) := le_max_left _ _
      calc minE = quantizeHalfUp 3 minE := by rw [ha, quantizeHalfUp_intDiv]
        _ ≤ _ := quantizeHalfUp_mono 3 h1
  · by_cases hc : efficiency ≤ 0
    · rw [calculate_efficiency_factor, if_pos hc]
    · rw [calculate_efficiency_factor, if_neg hc]
      have h1 : max minE (min maxE (100 / efficiency)) ≤ maxE :=
        max_le hab (min_le_left _ _)
      calc quantizeHalfUp 3 (max minE (min maxE (100 / efficiency)))
          ≤ quantizeHalfUp 3 maxE := quantizeHalfUp_mono 3 h1
        _ = maxE := by rw [hb, quantizeHalfUp_intDiv]

/-- Witness for C1 at `efficiency = 64`, bounds `[0.7, 1.3]`. -/
theorem c1_efficiency_factor_spec_witness :
    (7/10 : ℚ) ≤ calculate_efficiency_factor 64 (7/10) (13/10) ∧
    calculate_efficiency_factor 64 (7/10) (13/10) ≤ 13/10 := by
  have h := c1_efficiency_factor_spec 64 (7/10) (13/10) 700 1300
    (by norm_num) (by norm_num) (by norm_num)
  exact ⟨h.2.2.1, h.2.2.2⟩

theorem quantize_zero (d : ℕ) : quantize d 0 = 0 := by
  have h := quantize_intDiv d 0
  simpa using h

/-- Range of the raw per-resource efficiency formula under nonnegative
    counters. -/
theorem calculate_cpu_efficiency_range (u r : ℚ) (hu : 0 ≤ u) (hr : 0 ≤ r) :
    0 ≤ calculate_cpu_efficiency u r ∧ calculate_cpu_efficiency u r ≤ 100 := by
  unfold calculate_cpu_efficiency
  split_ifs with h
  · norm_num
  · have hrpos : 0 < r := lt_of_le_of_ne hr (Ne.symm h)
    refine ⟨le_min (by positivity) (by norm_num), min_le_right _ _⟩

theorem quantize_mem_Icc (d : ℕ) (x : ℚ) (h0 : 0 ≤ x) (h100 : x ≤ 100) :
    0 ≤ quantize d x ∧ quantize d x ≤ 100 := by
  refine ⟨quantize_nonneg d x h0, ?_⟩
  have := quantize_le_int d x 100 (by exact_mod_cast h100)
  exact_mod_cast this

/-- Claim C4 (amended): for every snapshot whose usage and request counters
    are nonnegative, the computed `cpu_efficiency`, `memory_efficiency` and
    `overall_efficiency` all lie in `[0, 100]`.  (With negative counters the
    code enforces only the upper cap at 100: see the counterexample.) -/
theorem c4_efficiency_range (m : FunctionMetrics)
    (hcu : 0 ≤ m.total_cpu_usage.getD 0) (hcr : 0 ≤ m.total_cpu_request.getD 1)
    (hmu : 0 ≤ m.total_memory_usage.getD 0) (hmr : 0 ≤ m.total_memory_request.getD 1) :
    0 ≤ (calculate_efficiency_metrics m).cpu_efficiency ∧
    (calculate_efficiency_metrics m).cpu_efficiency ≤ 100 ∧
    0 ≤ (calculate_efficiency_metrics m).memory_efficiency ∧
    (calculate_efficiency_metrics m).memory_efficiency ≤ 100 ∧
    0 ≤ (calculate_efficiency_metrics m).overall_efficiency ∧
    (calculate_efficiency_metrics m).overall_efficiency ≤ 100 := by
  obtain ⟨hc0, hc100⟩ := calculate_cpu_efficiency_range _ _ hcu hcr
  have hm' : 0 ≤ calculate_memory_efficiency (m.total_memory_usage.getD 0)
      (m.total_memory_request.getD 1) ∧
      calculate_memory_efficiency (m.total_memory_usage.getD 0)
        (m.total_memory_request.getD 1) ≤ 100 := by
    unfold calculate_memory_efficiency
    split_ifs with h
    · norm_num
    · have hrpos : 0 < m.total_memory_request.getD 1 := lt_of_le_of_ne hmr (Ne.symm h)
      refine ⟨le_min (by positivity) (by norm_num), min_le_right _ _⟩
  obtain ⟨hm0, hm100⟩ := hm'
  have hover : 0 ≤ (calculate_cpu_efficiency (m.total_cpu_usage.getD 0)
        (m.total_cpu_request.getD 1)
      + calculate_memory_efficiency (m.total_memory_usage.getD 0)
        (m.total_memory_request.getD 1)) / 2 ∧
      (calculate_cpu_efficiency (m.total_cpu_usage.getD 0) (m.total_cpu_request.getD 1)
      + calculate_memory_efficiency (m.total_memory_usage.getD 0)
        (m.total_memory_request.getD 1)) / 2 ≤ 100 := by
    constructor <;> [linarith; linarith]
  obtain ⟨ho0, ho100⟩ := hover
  obtain ⟨q1, q2⟩ := quantize_mem_Icc 2 _ hc0 hc100
  obtain ⟨q3, q4⟩ := quantize_mem_Icc 2 _ hm0 hm100
  obtain ⟨q5, q6⟩ := quantize_mem_Icc 2 _ ho0 ho100
  exact ⟨q1, q2, q3, q4, q5, q6⟩

/-- Witness for C4 (amended) at a concrete snapshot. -/
theorem c4_efficiency_range_witness :
    0 ≤ (calculate_efficiency_metrics
        { total_cpu_usage := some 50, total_cpu_request := some 100,
          total_memory_usage := some 25, total_memory_request := some 100 }).cpu_efficiency ∧
    (calculate_efficiency_metrics
        { total_cpu_usage := some 50, total_cpu_request := some 100,
          total_memory_usage := some 25, total_memory_request := some 100 }).cpu_efficiency
      ≤ 100 := by
  have h := c4_efficiency_range
    { total_cpu_usage := some 50, total_cpu_request := some 100,
      total_memory_usage := some 25, total_memory_request := some 100 }
    (by norm_num) (by norm_num) (by norm_num) (by norm_num)
  exact ⟨h.1, h.2.1⟩

/-- Claim C4 counterexample: a snapshot with negative CPU usage (usage −1,
    request defaulting to 1) yields `cpu_efficiency = −100 < 0`: the code
    caps efficiencies above at 100 but never floors them at 0. -/
theorem c4_counterexample :
    (calculate_efficiency_metrics { total_cpu_usage := some (-1) }).cpu_efficiency < 0 := by
  norm_num [calculate_efficiency_metrics, calculate_cpu_efficiency,
    calculate_memory_efficiency, quantize, roundHalfEvenInt, min_def]

/-- `calculate_function_cost` reads the metrics dictionary only through the
    four defaulted lookups of the source. -/
theorem calculate_function_cost_congr (t : Option TariffPlan) (p : ℚ)
    (c : Option ClusterMetrics) (m m' : FunctionMetrics)
    (h1 : m.total_cpu_request.getD 0 = m'.total_cpu_request.getD 0)
    (h2 : m.total_memory_request.getD 0 = m'.total_memory_request.getD 0)
    (h3 : m.cold_start_count.getD 0 = m'.cold_start_count.getD 0)
    (h4 : m.overall_efficiency.getD 100 = m'.overall_efficiency.getD 100) :
    calculate_function_cost t m p c = calculate_function_cost t m' p c := by
  simp only [calculate_function_cost, cpu_hours_of, memory_gb_hours_of, cpu_cost_of,
    memory_cost_of, cold_start_cost_of, efficiency_factor_of, base_cost_of,
    final_cost_of, total_cost_of, h1, h2, h3, h4]

/-- Claim C3 (amended): absent metrics keys never make the computation fail,
    but their defaults are not uniformly zero: in `calculate_function_cost`
    a missing `overall_efficiency` defaults to 100 (priced as fully
    efficient, not a worst-case factor), while missing `total_cpu_request`,
    `total_memory_request` and `cold_start_count` default to 0; in
    `calculate_efficiency_metrics` a missing usage defaults to 0 and a
    missing request to 1, so a resource with both keys absent yields
    efficiency 0. -/
theorem c3_missing_fields (t : Option TariffPlan) (m : FunctionMetrics) (p : ℚ)
    (c : Option ClusterMetrics) :
    (m.overall_efficiency = none →
      calculate_function_cost t m p c
        = calculate_function_cost t { m with overall_efficiency := some 100 } p c) ∧
    (m.total_cpu_request = none →
      calculate_function_cost t m p c
        = calculate_function_cost t { m with total_cpu_request := some 0 } p c) ∧
    (m.total_memory_request = none →
      calculate_function_cost t m p c
        = calculate_function_cost t { m with total_memory_request := some 0 } p c) ∧
    (m.cold_start_count = none →
      calculate_function_cost t m p c
        = calculate_function_cost t { m with cold_start_count := some 0 } p c) ∧
    (m.total_cpu_usage = none → m.total_cpu_request = none →
      (calculate_efficiency_metrics m).cpu_efficiency = 0) ∧
    (m.total_memory_usage = none → m.total_memory_request = none →
      (calculate_efficiency_metrics m).memory_efficiency = 0) := by
  refine ⟨fun h => ?_, fun h => ?_, fun h => ?_, fun h => ?_,
    fun h h' => ?_, fun h h' => ?_⟩
  · exact calculate_function_cost_congr t p c _ _ rfl rfl rfl (by rw [h]; rfl)
  · exact calculate_function_cost_congr t p c _ _ (by rw [h]; rfl) rfl rfl rfl
  · exact calculate_function_cost_congr t p c _ _ rfl (by rw [h]; rfl) rfl rfl
  · exact calculate_function_cost_congr t p c _ _ rfl rfl (by rw [h]; rfl) rfl
  · simp [calculate_efficiency_metrics, calculate_cpu_efficiency, h, h', quantize_zero]
  · simp [calculate_efficiency_metrics, calculate_memory_efficiency, h, h', quantize_zero]

/-- Witness for C3 (amended) at the empty metrics dictionary. -/
theorem c3_missing_fields_witness :
    calculate_function_cost none {} 1 none
      = calculate_function_cost none { overall_efficiency := some 100 } 1 none ∧
    (calculate_efficiency_metrics {}).cpu_efficiency = 0 := by
  have h := c3_missing_fields none {} 1 none
  exact ⟨h.1 rfl, h.2.2.2.2.1 rfl rfl⟩

/-- Claim C3 counterexample: a metrics dictionary without the
    `overall_efficiency` key is priced with efficiency factor 1 (default
    efficiency 100), not with the worst-case factor that efficiency 0 would
    give; and a dictionary with CPU usage 500 but no `total_cpu_request` key
    gets cpu_efficiency 100, not 0 (the request defaults to 1). -/
theorem c3_counterexample :
    (calculate_function_cost none { total_cpu_request := some 1000 } 1 none).efficiency_factor
      ≠ (calculate_function_cost none
          { total_cpu_request := some 1000, overall_efficiency := some 0 } 1
          none).efficiency_factor ∧
    (calculate_efficiency_metrics { total_cpu_usage := some 500 }).cpu_efficiency ≠ 0 := by
  constructor
  · norm_num [calculate_function_cost, efficiency_factor_of, rates,
      calculate_efficiency_factor, quantizeHalfUp, roundHalfUpInt, min_def, max_def]
  · norm_num [calculate_efficiency_metrics, calculate_cpu_efficiency,
      calculate_memory_efficiency, quantize, roundHalfEvenInt, min_def]

/-- `_calculate_fixed_plan_cost` already returns a 4-decimal value. -/
theorem fixed_plan_cost_quantized (t : Option TariffPlan) (p : ℚ) :
    quantize 4 (calculate_fixed_plan_cost t p) = calculate_fixed_plan_cost t p := by
  cases t with
  | none => exact quantize_zero 4
  | some tp =>
    simp only [calculate_fixed_plan_cost]
    split_ifs with h
    · exact quantize_zero 4
    · exact quantize_idem 4 _

/-- Claim C2 (amended): the identities `total_cost = final_cost +
    fixed_plan_cost` and `platform_fee = final_cost − base_cost` hold exactly
    on the pre-output values, where the `fixed_plan_cost` summand is already
    quantized to 4 decimal places inside `_calculate_fixed_plan_cost` (so not
    every input of the total-cost sum retains full precision); on the
    returned, independently quantized fields each identity holds only up to
    one output quantum `10⁻⁴`, and can miss exact equality at rounding
    ties. -/
theorem c2_breakdown_consistency (t : Option TariffPlan) (m : FunctionMetrics) (p : ℚ)
    (c : Option ClusterMetrics) :
    total_cost_of t m p c = final_cost_of t m p c + calculate_fixed_plan_cost t p ∧
    (calculate_function_cost t m p c).fixed_plan_cost = calculate_fixed_plan_cost t p ∧
    |(calculate_function_cost t m p c).total_cost
        - ((calculate_function_cost t m p c).final_cost
          + (calculate_function_cost t m p c).fixed_plan_cost)| ≤ 1 / 10 ^ 4 ∧
    |(calculate_function_cost t m p c).platform_fee
        - ((calculate_function_cost t m p c).final_cost
          - (calculate_function_cost t m p c).base_cost)| ≤ 1 / 10 ^ 4 := by
  refine ⟨rfl, fixed_plan_cost_quantized t p, ?_, ?_⟩
  · show |quantize 4 (total_cost_of t m p c)
        - (quantize 4 (final_cost_of t m p c) + quantize 4 (calculate_fixed_plan_cost t p))|
      ≤ 1 / 10 ^ 4
    rw [fixed_plan_cost_quantized t p]
    exact quantize4_add_err (final_cost_of t m p c) (calculate_fixed_plan_cost t p)
  · exact quantize4_sub_err (final_cost_of t m p c) (base_cost_of t m p c)

/-- Claim C2 counterexample: with the fallback tariff constants, metrics
    `total_cpu_request = 25` and period 1h give unquantized
    `final_cost = 0.000065`, `base_cost = 0.00005`, `platform_fee = 0.000015`;
    after output quantization the returned fields are `platform_fee = 0.0000`
    but `final_cost − base_cost = 0.0001 − 0.0000 = 0.0001`, so the returned
    fields do not satisfy `platform_fee = final_cost − base_cost` exactly. -/
theorem c2_counterexample :
    (calculate_function_cost none { total_cpu_request := some 25 } 1 none).platform_fee
      ≠ (calculate_function_cost none { total_cpu_request := some 25 } 1 none).final_cost
        - (calculate_function_cost none { total_cpu_request := some 25 } 1 none).base_cost := by
  norm_num [calculate_function_cost, cpu_hours_of, memory_gb_hours_of, cpu_cost_of,
    memory_cost_of, cold_start_cost_of, efficiency_factor_of, base_cost_of,
    final_cost_of, total_cost_of, rates, calculate_cold_start_cost,
    calculate_efficiency_factor, calculate_fixed_plan_cost, quantize, roundHalfEvenInt,
    quantizeHalfUp, roundHalfUpInt, min_def, max_def]

/-- Claim C5 (amended): holding the metrics fixed, doubling the period
    exactly doubles the pre-quantization `cpu_cost` and `memory_cost` (and
    the pre-quantization fixed charge `monthly_price/730 × period`), and
    leaves the cold-start cost unchanged; on the returned fields,
    `cold_start_cost` is identical, while the quantized `cpu_cost`,
    `memory_cost` and `fixed_plan_cost` equal double the one-period value
    only up to one output quantum `10⁻⁴` (exact doubling can fail at
    rounding ties). -/
theorem c5_period_linearity (t : Option TariffPlan) (m : FunctionMetrics) (h : ℚ)
    (c : Option ClusterMetrics) :
    cpu_cost_of t m (2 * h) = 2 * cpu_cost_of t m h ∧
    memory_cost_of t m (2 * h) = 2 * memory_cost_of t m h ∧
    (calculate_function_cost t m (2 * h) c).cold_start_cost
      = (calculate_function_cost t m h c).cold_start_cost ∧
    |(calculate_function_cost t m (2 * h) c).cpu_cost
        - 2 * (calculate_function_cost t m h c).cpu_cost| ≤ 1 / 10 ^ 4 ∧
    |(calculate_function_cost t m (2 * h) c).memory_cost
        - 2 * (calculate_function_cost t m h c).memory_cost| ≤ 1 / 10 ^ 4 ∧
    |(calculate_function_cost t m (2 * h) c).fixed_plan_cost
        - 2 * (calculate_function_cost t m h c).fixed_plan_cost| ≤ 1 / 10 ^ 4 := by
  have hcpu : cpu_cost_of t m (2 * h) = 2 * cpu_cost_of t m h := by
    unfold cpu_cost_of cpu_hours_of
    ring
  have hmem : memory_cost_of t m (2 * h) = 2 * memory_cost_of t m h := by
    unfold memory_cost_of memory_gb_hours_of
    ring
  refine ⟨hcpu, hmem, rfl, ?_, ?_, ?_⟩
  · show |quantize 4 (cpu_cost_of t m (2 * h)) - 2 * quantize 4 (cpu_cost_of t m h)|
      ≤ 1 / 10 ^ 4
    rw [hcpu]
    exact quantize4_two_mul_err (cpu_cost_of t m h)
  · show |quantize 4 (memory_cost_of t m (2 * h)) - 2 * quantize 4 (memory_cost_of t m h)|
      ≤ 1 / 10 ^ 4
    rw [hmem]
    exact quantize4_two_mul_err (memory_cost_of t m h)
  · show |quantize 4 (calculate_fixed_plan_cost t (2 * h))
        - 2 * quantize 4 (calculate_fixed_plan_cost t h)| ≤ 1 / 10 ^ 4
    rw [fixed_plan_cost_quantized t (2 * h), fixed_plan_cost_quantized t h]
    cases t with
    | none =>
      simp [calculate_fixed_plan_cost]
    | some tp =>
      simp only [calculate_fixed_plan_cost]
      split_ifs with hz
      · norm_num
      · have harg : tp.monthly_price / 730 * (2 * h)
            = 2 * (tp.monthly_price / 730 * h) := by ring
        rw [harg]
        exact quantize4_two_mul_err (tp.monthly_price / 730 * h)

/-- Claim C5 counterexample: with the fallback tariff constants and
    `total_cpu_request = 75`, the returned `cpu_cost` is 0.0002 for period
    1h (half-even tie at 0.00015) but 0.0003 for period 2h, and
    0.0003 ≠ 2 × 0.0002: the returned quantized fields do not double
    exactly. -/
theorem c5_counterexample :
    (calculate_function_cost none { total_cpu_request := some 75 } 2 none).cpu_cost
      ≠ 2 * (calculate_function_cost none { total_cpu_request := some 75 } 1 none).cpu_cost := by
  norm_num [calculate_function_cost, cpu_hours_of, cpu_cost_of, rates, quantize,
    roundHalfEvenInt]

/-- Claim C6: `calculate_cold_start_cost` returns 0 whenever the count is
    ≤ 0; otherwise the count times the penalty, scaled — when a cluster load
    percentage is supplied — by `load_factor = clamp(1 + (load − 50)/100,
    0.8, 1.5)`; the load factor is exactly 1 at load 50 and clamps to 0.8 and
    1.5 at extreme loads 0 and 500. -/
theorem c6_cold_start_cost_spec (count : ℤ) (penalty load : ℚ)
    (cm : Option ClusterMetrics) :
    (count ≤ 0 → calculate_cold_start_cost count cm penalty = 0) ∧
    (0 < count →
      calculate_cold_start_cost count none penalty = (count : ℚ) * penalty) ∧
    (0 < count →
      calculate_cold_start_cost count (some { average_load_percent := some load }) penalty
        = (count : ℚ) * penalty * load_factor load) ∧
    (∀ l : ℚ, load_factor l = max (8/10) (min (15/10) (1 + (l - 50) / 100))) ∧
    load_factor 50 = 1 ∧ load_factor 0 = 8/10 ∧ load_factor 500 = 15/10 := by
  refine ⟨fun h => ?_, fun h => ?_, fun h => ?_, fun l => rfl, ?_, ?_, ?_⟩
  · rw [calculate_cold_start_cost, if_pos h]
  · rw [calculate_cold_start_cost, if_neg (not_le.mpr h)]
  · rw [calculate_cold_start_cost, if_neg (not_le.mpr h)]
    rfl
  · norm_num [load_factor]
  · norm_num [load_factor]
  · norm_num [load_factor]

/-- Witness for C6 at counts 0 and 10, penalty 0.005, load 100. -/
theorem c6_cold_start_cost_spec_witness :
    calculate_cold_start_cost 0 none (5/1000) = 0 ∧
    calculate_cold_start_cost 10 none (5/1000) = ((10 : ℤ) : ℚ) * (5/1000) ∧
    calculate_cold_start_cost 10 (some { average_load_percent := some 100 }) (5/1000)
      = ((10 : ℤ) : ℚ) * (5/1000) * load_factor 100 ∧
    load_factor 50 = 1 := by
  refine ⟨(c6_cold_start_cost_spec 0 (5/1000) 0 none).1 (by norm_num),
    (c6_cold_start_cost_spec 10 (5/1000) 0 none).2.1 (by norm_num),
    (c6_cold_start_cost_spec 10 (5/1000) 100 none).2.2.1 (by norm_num),
    (c6_cold_start_cost_spec 0 (5/1000) 0 none).2.2.2.2.1⟩

/-- Claim C7: the tariff resolver's fallback chain: no tenant → the (first)
    active starter plan; tenant with an active subscription → that
    subscription's plan; tenant without one → the active starter plan, or a
    freshly created zero-monthly-price starter plan persisted into the store
    when none exists; any data-access failure → no plan. -/
theorem c7_tariff_resolver_chain (db : TariffStore) (user : ℕ) :
    (∀ p, first_active_starter db = some p →
      (get_user_tariff_plan (Except.ok db) none).1 = some p) ∧
    (∀ s, first_active_subscription db user = some s →
      (get_user_tariff_plan (Except.ok db) (some user)).1 = some s.tariff_plan) ∧
    (first_active_subscription db user = none →
      ∀ p, first_active_starter db = some p →
        (get_user_tariff_plan (Except.ok db) (some user)).1 = some p) ∧
    (first_active_subscription db user = none → first_active_starter db = none →
      (get_user_tariff_plan (Except.ok db) (some user)).1 = some bootstrap_starter_plan ∧
      bootstrap_starter_plan.monthly_price = 0 ∧
      bootstrap_starter_plan.tier = PlanTier.STARTER ∧
      bootstrap_starter_plan.is_active = true ∧
      (get_user_tariff_plan (Except.ok db) (some user)).2
        = Except.ok { db with plans := db.plans ++ [bootstrap_starter_plan] }) ∧
    (∀ u : Option ℕ, (get_user_tariff_plan (Except.error ()) u).1 = none) := by
  refine ⟨fun p hp => ?_, fun s hs => ?_, fun hns p hp => ?_, fun hns hnp => ?_,
    fun u => rfl⟩
  · simp [get_user_tariff_plan, hp]
  · simp [get_user_tariff_plan, hs]
  · simp [get_user_tariff_plan, hns, hp]
  · refine ⟨?_, rfl, rfl, rfl, ?_⟩
    · simp [get_user_tariff_plan, hns, hnp]
    · simp [get_user_tariff_plan, hns, hnp]

/-- Witness for C7: each branch of the chain at a concrete store. -/
theorem c7_tariff_resolver_chain_witness :
    (get_user_tariff_plan (Except.ok ⟨[bootstrap_starter_plan], []⟩) none).1
      = some bootstrap_starter_plan ∧
    (get_user_tariff_plan
        (Except.ok ⟨[], [⟨7, SubscriptionStatus.ACTIVE, bootstrap_starter_plan⟩]⟩)
        (some 7)).1 = some bootstrap_starter_plan ∧
    (get_user_tariff_plan (Except.ok ⟨[bootstrap_starter_plan], []⟩) (some 7)).1
      = some bootstrap_starter_plan ∧
    (get_user_tariff_plan (Except.ok ⟨[], []⟩) (some 7)).1 = some bootstrap_starter_plan ∧
    (get_user_tariff_plan (Except.error ()) (some 7)).1 = none := by
  refine ⟨(c7_tariff_resolver_chain ⟨[bootstrap_starter_plan], []⟩ 0).1
      bootstrap_starter_plan rfl,
    (c7_tariff_resolver_chain ⟨[], [⟨7, SubscriptionStatus.ACTIVE, bootstrap_starter_plan⟩]⟩
      7).2.1 ⟨7, SubscriptionStatus.ACTIVE, bootstrap_starter_plan⟩ rfl,
    (c7_tariff_resolver_chain ⟨[bootstrap_starter_plan], []⟩ 7).2.2.1 rfl
      bootstrap_starter_plan rfl,
    ((c7_tariff_resolver_chain ⟨[], []⟩ 7).2.2.2.1 rfl rfl).1,
    (c7_tariff_resolver_chain ⟨[], []⟩ 7).2.2.2.2 (some 7)⟩

/-- Claim C8: `check_plan_limits` returns `allowed` equal to the conjunction
    of the four boolean checks, and whenever the proposed `cpu_request`
    exceeds the resolved plan's `max_cpu_per_function`, the CPU check and
    `allowed` are both false regardless of the other checks. -/
theorem c8_allowed_is_and (t : Option TariffPlan)
    (uf : Option (List DeployedFunction)) (fd : FunctionData) :
    ((check_plan_limits t uf fd).allowed
      = ((check_plan_limits t uf fd).functions_limit
        && (check_plan_limits t uf fd).cpu_limit
        && (check_plan_limits t uf fd).memory_limit
        && (check_plan_limits t uf fd).scale_limit)) ∧
    ((check_plan_limits t uf fd).limits.max_cpu_per_function < fd.cpu_request.getD 0 →
      (check_plan_limits t uf fd).cpu_limit = false ∧
      (check_plan_limits t uf fd).allowed = false) := by
  refine ⟨rfl, fun h => ?_⟩
  have hcpu : (check_plan_limits t uf fd).cpu_limit = false := by
    simp only [check_plan_limits]
    exact decide_eq_false (not_le.mpr h)
  refine ⟨hcpu, ?_⟩
  show ((check_plan_limits t uf fd).functions_limit
      && (check_plan_limits t uf fd).cpu_limit
      && (check_plan_limits t uf fd).memory_limit
      && (check_plan_limits t uf fd).scale_limit) = false
  rw [hcpu]
  simp

/-- Witness for C8: fallback limits (max CPU 2000) and a 3000-millicore
    proposal. -/
theorem c8_allowed_is_and_witness :
    (check_plan_limits none none { cpu_request := some 3000 }).cpu_limit = false ∧
    (check_plan_limits none none { cpu_request := some 3000 }).allowed = false :=
  (c8_allowed_is_and none none { cpu_request := some 3000 }).2 (by decide)

/-- Claim C10: the boundary treatment of the four checks is asymmetric: the
    workload-count check is strict (`functions_count < max_functions`, so a
    tenant at exactly the cap is denied), while the CPU, memory and scale
    checks are non-strict (`≤`, so a proposal exactly at the corresponding
    ceiling passes that check). -/
theorem c10_boundary_asymmetry (t : Option TariffPlan)
    (uf : Option (List DeployedFunction)) (fd : FunctionData) :
    ((check_plan_limits t uf fd).functions_limit = true ↔
      (check_plan_limits t uf fd).current_usage.functions_count
        < (check_plan_limits t uf fd).limits.max_functions) ∧
    ((check_plan_limits t uf fd).cpu_limit = true ↔
      fd.cpu_request.getD 0 ≤ (check_plan_limits t uf fd).limits.max_cpu_per_function) ∧
    ((check_plan_limits t uf fd).memory_limit = true ↔
      fd.memory_request.getD 0
        ≤ (check_plan_limits t uf fd).limits.max_memory_per_function) ∧
    ((check_plan_limits t uf fd).scale_limit = true ↔
      fd.max_scale.getD 0 ≤ (check_plan_limits t uf fd).limits.max_scale) ∧
    ((check_plan_limits t uf fd).current_usage.functions_count
        = (check_plan_limits t uf fd).limits.max_functions →
      (check_plan_limits t uf fd).functions_limit = false) ∧
    (fd.cpu_request.getD 0 = (check_plan_limits t uf fd).limits.max_cpu_per_function →
      (check_plan_limits t uf fd).cpu_limit = true) ∧
    (fd.memory_request.getD 0
        = (check_plan_limits t uf fd).limits.max_memory_per_function →
      (check_plan_limits t uf fd).memory_limit = true) ∧
    (fd.max_scale.getD 0 = (check_plan_limits t uf fd).limits.max_scale →
      (check_plan_limits t uf fd).scale_limit = true) := by
  simp only [check_plan_limits]
  refine ⟨decide_eq_true_iff, decide_eq_true_iff, decide_eq_true_iff,
    decide_eq_true_iff, fun h => ?_, fun h => ?_, fun h => ?_, fun h => ?_⟩
  · exact decide_eq_false (by rw [h]; exact lt_irrefl _)
  · exact decide_eq_true (le_of_eq h)
  · exact decide_eq_true (le_of_eq h)
  · exact decide_eq_true (le_of_eq h)

/-- Witness for C10: ten existing workloads against the fallback cap of 10
    (denied) and a proposal exactly at the CPU/memory/scale ceilings
    (each passes). -/
theorem c10_boundary_asymmetry_witness :
    (check_plan_limits none (some (List.replicate 10 ⟨1⟩))
      { cpu_request := some 2000, memory_request := some 2147483648,
        max_scale := some 10 }).functions_limit = false ∧
    (check_plan_limits none (some (List.replicate 10 ⟨1⟩))
      { cpu_request := some 2000, memory_request := some 2147483648,
        max_scale := some 10 }).cpu_limit = true ∧
    (check_plan_limits none (some (List.replicate 10 ⟨1⟩))
      { cpu_request := some 2000, memory_request := some 2147483648,
        max_scale := some 10 }).memory_limit = true ∧
    (check_plan_limits none (some (List.replicate 10 ⟨1⟩))
      { cpu_request := some 2000, memory_request := some 2147483648,
        max_scale := some 10 }).scale_limit = true := by
  have h := c10_boundary_asymmetry none (some (List.replicate 10 ⟨1⟩))
    { cpu_request := some 2000, memory_request := some 2147483648, max_scale := some 10 }
  exact ⟨h.2.2.2.2.1 (by decide), h.2.2.2.2.2.1 (by decide),
    h.2.2.2.2.2.2.1 (by decide), h.2.2.2.2.2.2.2 (by decide)⟩

/-- Reading back the key just written: the freshly set entry is returned
    until its expiry instant and never afterwards. -/
theorem cache_get_set_same (cs : CacheState) (k : String) (v : CachedCostEntry)
    (tm nw t' : ℚ) :
    cache_get (cache_set cs k v tm nw) k t'
      = if t' < nw + tm then some v else none := by
  simp only [cache_get, cache_set]
  rw [List.find?_cons_of_pos _ (by simp)]

/-- Claim C9: a successful `calculate_function_cost_now` followed
    immediately by `get_cached_costs` for the same workload and tenant
    returns a cache entry whose detailed per-period breakdown set is
    identical to the set `calculate_function_cost_now` returned; once the
    time-to-live (120 seconds) has elapsed, `get_cached_costs` returns
    nothing. -/
theorem c9_cache_roundtrip (tariff : Option TariffPlan) (f : FunctionObj) (u : UserObj)
    (c : CacheState) (now t2 : ℚ) :
    (get_cached_costs f u (calculate_function_cost_now tariff f u c now).2 now).map
        CachedCostEntry.detailed_costs
      = some (calculate_function_cost_now tariff f u c now).1 ∧
    (now + cost_calculation_cache_timeout ≤ t2 →
      get_cached_costs f u (calculate_function_cost_now tariff f u c now).2 t2 = none) := by
  constructor
  · simp only [get_cached_costs, calculate_function_cost_now]
    rw [cache_get_set_same]
    rw [if_pos (by norm_num [cost_calculation_cache_timeout])]
    rfl
  · intro h
    simp only [get_cached_costs, calculate_function_cost_now]
    rw [cache_get_set_same]
    rw [if_neg (not_lt.mpr h)]

/-- Witness for C9 at a concrete workload, tenant, empty cache, and the
    expiry boundary 120 seconds later. -/
theorem c9_cache_roundtrip_witness :
    (get_cached_costs ⟨1, 1, none, none⟩ ⟨2⟩
        (calculate_function_cost_now none ⟨1, 1, none, none⟩ ⟨2⟩ ⟨[]⟩ 0).2 0).map
      CachedCostEntry.detailed_costs
      = some (calculate_function_cost_now none ⟨1, 1, none, none⟩ ⟨2⟩ ⟨[]⟩ 0).1 ∧
    get_cached_costs ⟨1, 1, none, none⟩ ⟨2⟩
        (calculate_function_cost_now none ⟨1, 1, none, none⟩ ⟨2⟩ ⟨[]⟩ 0).2 120 = none := by
  have h := c9_cache_roundtrip none ⟨1, 1, none, none⟩ ⟨2⟩ ⟨[]⟩ 0 120
  exact ⟨h.1, h.2 (by norm_num [cost_calculation_cache_timeout])⟩
